/-
Verification of the Pioneer WYT mini-split bridge service
(src/service/app.py) against its natural-language specification.

Shallow embedding conventions:
* Python floats are modelled as exact rationals (the spec's tolerance of
  0.1 dwarfs binary floating-point error on the magnitudes involved).
* Python `int(x)` truncates toward zero; `round(x, 1)` is modelled as
  rounding x * 10 to the nearest integer (Python uses round-half-to-even;
  the two differ only at exact midpoints, which no reachable temperature
  value produces: after scaling, all values have denominator 1 or 9).
* `tinytuya.Device` is an external collaborator; its behaviour at each
  call site is an explicit outcome parameter (exception / malformed
  response / success with a payload).
* `threading.Lock` is non-reentrant: acquiring a lock that is already
  held blocks forever.  Operations therefore return `Option` results,
  `none` meaning the call never returns (deadlock).
-/
import Mathlib

namespace TuyaMinisplit

/- Batteries marks the `Rat` field operations irreducible, which blocks
evaluation of concrete rational arithmetic inside `decide`; restore the
default reducibility for this file (the kernel is unaffected either way). -/
attribute [local semireducible] Rat.add Rat.sub Rat.mul Rat.inv

/-- The configured display unit (environment variable TEMP_UNIT). -/
inductive TempUnit
  | F
  | C
deriving DecidableEq, Repr

/-- A Python value as it appears in DPS mappings and command payloads:
booleans, numbers (int and float collapsed into one exact rational
constructor) and strings. -/
inductive PyVal
  | pbool (b : Bool)
  | pnum (q : ℚ)
  | pstr (s : String)
deriving DecidableEq, Repr

/-- Python truthiness of a value (`bool(v)`). -/
def PyVal.truthy : PyVal → Bool
  | .pbool b => b
  | .pnum q => decide (q ≠ 0)
  | .pstr s => decide (s ≠ "")

/-- Numeric coercion used by Python arithmetic: bools are ints,
numbers are themselves, strings raise TypeError (`none`). -/
def asNum : PyVal → Option ℚ
  | .pbool b => some (if b then 1 else 0)
  | .pnum q => some q
  | .pstr _ => none

/-- `celsius_to_fahrenheit` from app.py. -/
def celsius_to_fahrenheit (c : ℚ) : ℚ := c * 9 / 5 + 32

/-- `fahrenheit_to_celsius` from app.py. -/
def fahrenheit_to_celsius (f : ℚ) : ℚ := (f - 32) * 5 / 9

/-- Python `int(q)`: truncation toward zero. -/
def pyInt (q : ℚ) : ℤ := if 0 ≤ q then ⌊q⌋ else ⌈q⌉

/-- Python `round(q, 1)`: round to one decimal place. -/
def pyRound1 (q : ℚ) : ℚ := ((round (q * 10) : ℤ) : ℚ) / 10

/-- Python `s.lower()`, character by character (ASCII suffices for every
string the service compares). -/
def pyLower (s : String) : String := String.mk (s.data.map Char.toLower)

/-- Helper for `pySplit`: walk the characters, accumulating the current
word, splitting at whitespace and dropping empty pieces. -/
def splitWsAux : List Char → List Char → List String
  | [], acc => if acc.isEmpty then [] else [String.mk acc.reverse]
  | c :: cs, acc =>
    if c.isWhitespace then
      if acc.isEmpty then splitWsAux cs []
      else String.mk acc.reverse :: splitWsAux cs []
    else splitWsAux cs (c :: acc)

/-- Python `s.split()` with no argument: split on whitespace runs,
dropping empty pieces. -/
def pySplit (s : String) : List String := splitWsAux s.data []

/-- A raw DPS mapping (Python dict keyed by DP number as a string).
Key order is lookup order; keys are unique in every value the service
builds. -/
abbrev RawDps := List (String × PyVal)

/-- `d.get(k)` on an association list (first matching key). -/
def dictGet {α : Type} (d : List (String × α)) (k : String) : Option α :=
  List.lookup k d

/-- `m.get(k, dflt)` for string-to-string vocabulary maps. -/
def lookupD (m : List (String × String)) (k dflt : String) : String :=
  (dictGet m k).getD dflt

/-- State of the `DeviceConnection` singleton: the device handle
(`connected` stands for `self.device is not None`), the lock bit of the
non-reentrant `threading.Lock`, and the status cache. -/
structure ConnState where
  connected : Bool
  lockHeld : Bool
  last_status : RawDps
  last_status_time : ℚ
  status_cache_ttl : ℚ
deriving DecidableEq, Repr

/-- Outcome of a `self.device.status()` call: exception, a response
without a truthy `dps` member, or a well-formed response. -/
inductive StatusOutcome
  | exn
  | noDps
  | ok (dps : RawDps)
deriving DecidableEq, Repr

/-- Outcome of a `self.device.set_value(dp, value)` call: exception,
a `None` result, or a non-`None` acknowledgement. -/
inductive SetOutcome
  | exn
  | retNone
  | ack
deriving DecidableEq, Repr

/-- `DeviceConnection.connect`.  `credsOk` is `all([DEVICE_ID, LOCAL_KEY,
DEVICE_IP])` (checked before the lock is taken); `constructOk` is whether
`tinytuya.Device(...)` construction succeeds.  Returns `none` when the
call blocks forever on `self.lock`. -/
def connect (credsOk constructOk : Bool) (s : ConnState) :
    Option (Bool × ConnState) :=
  if credsOk = false then some (false, s)
  else if s.lockHeld then none
  else if constructOk then some (true, { s with connected := true })
  else some (false, { s with connected := false })

/-- Lines 91-101 of app.py: the `try` block of `get_status`, entered with
the lock held and a device present. -/
def statusQuery (s : ConnState) (now : ℚ) : StatusOutcome → RawDps × ConnState
  | .exn => ([], { s with connected := false })
  | .noDps => ([], s)
  | .ok dps => (dps, { s with last_status := dps, last_status_time := now })

/-- `DeviceConnection.get_status`.  The cache-freshness fast path runs
before the lock is taken.  Inside the lock, a missing device triggers
`self.connect()`, which tries to re-acquire the same lock. -/
def get_status (s : ConnState) (now : ℚ) (force_refresh : Bool)
    (credsOk constructOk : Bool) (outcome : StatusOutcome) :
    Option (RawDps × ConnState) :=
  if force_refresh = false ∧ now - s.last_status_time < s.status_cache_ttl then
    some (s.last_status, s)
  else if s.lockHeld then none
  else
    let s1 : ConnState := { s with lockHeld := true }
    if s1.connected then
      let r := statusQuery s1 now outcome
      some (r.1, { r.2 with lockHeld := false })
    else
      match connect credsOk constructOk s1 with
      | none => none
      | some (false, s2) => some ([], { s2 with lockHeld := false })
      | some (true, s2) =>
        let r := statusQuery s2 now outcome
        some (r.1, { r.2 with lockHeld := false })

/-- Lines 110-118 of app.py: the `try` block of `set_value`.  The cache
timestamp is zeroed whenever the device call returns (even with `None`);
an exception skips the invalidation and drops the handle. -/
def setSend (s : ConnState) : SetOutcome → Bool × ConnState
  | .exn => (false, { s with connected := false })
  | .retNone => (false, { s with last_status_time := 0 })
  | .ack => (true, { s with last_status_time := 0 })

/-- `DeviceConnection.set_value`. -/
def set_value (s : ConnState) (credsOk constructOk : Bool)
    (outcome : SetOutcome) : Option (Bool × ConnState) :=
  if s.lockHeld then none
  else
    let s1 : ConnState := { s with lockHeld := true }
    if s1.connected then
      let r := setSend s1 outcome
      some (r.1, { r.2 with lockHeld := false })
    else
      match connect credsOk constructOk s1 with
      | none => none
      | some (false, s2) => some (false, { s2 with lockHeld := false })
      | some (true, s2) =>
        let r := setSend s2 outcome
        some (r.1, { r.2 with lockHeld := false })

/-- Mapping `Except` onto `Sum`, to inherit decidable equality. -/
def exceptToSum {ε α : Type} : Except ε α → ε ⊕ α
  | .error e => .inl e
  | .ok a => .inr a

instance {ε α : Type} [DecidableEq ε] [DecidableEq α] :
    DecidableEq (Except ε α) := fun a b =>
  decidable_of_iff (exceptToSum a = exceptToSum b)
    (by cases a <;> cases b <;> simp [exceptToSum])

/-- The canonical status record built by `parse_status` (the
`StatusResponse` pydantic model).  Fields the code passes through
unconverted keep their raw `PyVal`. -/
structure StatusResponse where
  online : Bool
  power : Option PyVal
  mode : Option PyVal
  target_temp : Option ℚ
  current_temp : Option ℚ
  fan : Option PyVal
  humidity : Option PyVal
  vert_swing : Option PyVal
  horiz_swing : Option PyVal
  filter_dirty : Option PyVal
  raw_dps : RawDps
deriving DecidableEq, Repr

/-- Vocabulary translation `MAP.get('direction', {}).get(v, v)`: a
non-string value misses every key of a string-keyed dict and passes
through. -/
def vocabApply (m : List (String × String)) : PyVal → PyVal
  | .pstr s => .pstr (lookupD m s s)
  | v => v

/-- The same translation applied to an optional raw value (`dict.get`
on a possibly-missing datapoint): a missing value stays missing. -/
def mapVocab (m : List (String × String)) (v : Option PyVal) : Option PyVal :=
  v.map (vocabApply m)

/-- Target-temperature conversion in `parse_status` (lines 225-230):
the raw value is F multiplied by 10; divide by 10, convert to Celsius when
the display unit is C.  `none` on the outside means a Python TypeError
(string raw value); the inner option is absence of the datapoint. -/
def targetFromRaw (unit : TempUnit) : Option PyVal → Option (Option ℚ)
  | none => some none
  | some v =>
    (asNum v).map fun q =>
      some (if unit = .C then fahrenheit_to_celsius (q / 10) else q / 10)

/-- Current-temperature conversion in `parse_status` (lines 232-237):
the raw value is Celsius; convert to Fahrenheit when the display unit
is F. -/
def currentFromRaw (unit : TempUnit) : Option PyVal → Option (Option ℚ)
  | none => some none
  | some v =>
    (asNum v).map fun q =>
      some (if unit = .F then celsius_to_fahrenheit q else q)

/-- The `round(x, 1) if x else None` idiom of lines 249-250: a present
value is rounded to one decimal, but a value that is exactly 0 is falsy
and the field comes out as `None`. -/
def roundIfTruthy : Option ℚ → Option ℚ
  | some t => if t = 0 then none else some (pyRound1 t)
  | none => none

/-- `parse_status` from app.py.  `modeT2H` and `fanT2H` are the
`tuya_to_hubitat` directions of the two vocabulary maps.  The result is
`none` when the Python code would raise a TypeError (a non-numeric raw
temperature). -/
def parse_status (unit : TempUnit) (modeT2H fanT2H : List (String × String))
    (raw_dps : RawDps) : Option StatusResponse :=
  if raw_dps = [] then
    some { online := false, power := none, mode := none, target_temp := none,
           current_temp := none, fan := none, humidity := none,
           vert_swing := none, horiz_swing := none, filter_dirty := none,
           raw_dps := [] }
  else do
    let target? ← targetFromRaw unit (dictGet raw_dps "2")
    let current? ← currentFromRaw unit (dictGet raw_dps "3")
    pure { online := true
           power := dictGet raw_dps "1"
           mode := mapVocab modeT2H (dictGet raw_dps "4")
           target_temp := roundIfTruthy target?
           current_temp := roundIfTruthy current?
           fan := mapVocab fanT2H (dictGet raw_dps "5")
           humidity := dictGet raw_dps "18"
           vert_swing := dictGet raw_dps "113"
           horiz_swing := dictGet raw_dps "114"
           filter_dirty := dictGet raw_dps "131"
           raw_dps := raw_dps }

/-- A datapoint descriptor as read from the configuration table:
`dp_info['dp']`, `dp_info.get('type', 'string')`,
`dp_info.get('min', 61)` / `dp_info.get('max', 86)` (absent keys modelled
as `none`), `dp_info.get('values', [])`. -/
structure DpInfo where
  dp : ℤ
  type : String
  min? : Option ℤ
  max? : Option ℤ
  values : List String
deriving DecidableEq, Repr

/-- Errors surfaced by the service, with their HTTP status codes in
`statusOf`.  The 400-status constructors are the spec's ValidationError;
`valueError` and `typeError` stand for uncaught Python exceptions that
FastAPI turns into a 500. -/
inductive BridgeError
  | missingAuth
  | badAuthFormat
  | badToken
  | unknownCommand (command : String)
  | invalidEnum (value : PyVal) (command : String) (valid : List String)
  | valueError
  | typeError
  | sendFailed
  | reconnectFailed
deriving DecidableEq, Repr

/-- HTTP status code attached to each error by app.py. -/
def statusOf : BridgeError → Nat
  | .missingAuth => 401
  | .badAuthFormat => 401
  | .badToken => 403
  | .unknownCommand _ => 400
  | .invalidEnum _ _ _ => 400
  | .valueError => 500
  | .typeError => 500
  | .sendFailed => 500
  | .reconnectFailed => 500

/-- The bool branch of `send_command`: strings are compared against the
truthy tokens, everything else goes through `bool(value)`. -/
def pyBoolCoerce : PyVal → Bool
  | .pstr s => ["true", "1", "on", "yes"].contains (pyLower s)
  | v => v.truthy

/-- `float(value)` as used in the temperature branch.  Parsing of numeric
string literals is not modelled (`none` = ValueError); no claim exercises
string-typed temperatures. -/
def pyFloatCoerce : PyVal → Option ℚ
  | .pbool b => some (if b then 1 else 0)
  | .pnum q => some q
  | .pstr _ => none

/-- `int(value)` as used in the non-temperature int branch (same caveat
about string literals). -/
def pyIntCoerce : PyVal → Option ℤ
  | .pbool b => some (if b then 1 else 0)
  | .pnum q => some (pyInt q)
  | .pstr _ => none

/-- `if TEMP_UNIT == 'C': temp_f = celsius_to_fahrenheit(float(value))`
(lines 308-311): the input is read in the display unit and expressed
in Fahrenheit. -/
def toDeviceF (unit : TempUnit) (value : ℚ) : ℚ :=
  if unit = .C then celsius_to_fahrenheit value else value

/-- The target-temperature transform of `send_command` (lines 306-318):
scale by 10, truncate to int, clamp into the configured bounds
(default 61-86) scaled by 10. -/
def targetTempRaw (unit : TempUnit) (dp_info : DpInfo) (value : ℚ) : ℤ :=
  let temp_f := toDeviceF unit value
  let raw := pyInt (temp_f * 10)
  let min_val := dp_info.min?.getD 61 * 10
  let max_val := dp_info.max?.getD 86 * 10
  max min_val (min max_val raw)

/-- The vocabulary step of the enum branch (lines 324-327): mode and fan
go through the `hubitat_to_tuya` direction, other enum commands are
untouched. -/
def enumValue (modeMap fanMap : List (String × String)) (command : String)
    (value : PyVal) : PyVal :=
  if command = "mode" then vocabApply modeMap value
  else if command = "fan" then vocabApply fanMap value
  else value

/-- `value in valid_values` for a list of strings: Python `in` uses
equality, and a non-string value never equals a string. -/
def pyMemStr (v : PyVal) (l : List String) : Bool :=
  match v with
  | .pstr s => l.contains s
  | _ => false

/-- The pure validation/transformation pipeline of `send_command`
(lines 287-335): lowercase the command, look up its descriptor, dispatch
on the declared type, and either reject or produce the raw
(dp index, value) pair that will be sent. -/
def translateCommand (dps : List (String × DpInfo))
    (modeMap fanMap : List (String × String)) (unit : TempUnit)
    (rawCommand : String) (value : PyVal) :
    Except BridgeError (ℤ × PyVal) :=
  let command := pyLower rawCommand
  match dictGet dps command with
  | none => .error (.unknownCommand command)
  | some dp_info =>
    let dp := dp_info.dp
    if dp_info.type = "bool" then
      .ok (dp, .pbool (pyBoolCoerce value))
    else if dp_info.type = "int" then
      if command = "target_temp" then
        match pyFloatCoerce value with
        | none => .error .valueError
        | some q => .ok (dp, .pnum ((targetTempRaw unit dp_info q : ℤ) : ℚ))
      else
        match pyIntCoerce value with
        | none => .error .valueError
        | some n => .ok (dp, .pnum ((n : ℤ) : ℚ))
    else if dp_info.type = "enum" then
      let v := enumValue modeMap fanMap command value
      if dp_info.values ≠ [] ∧ pyMemStr v dp_info.values = false then
        .error (.invalidEnum v command dp_info.values)
      else .ok (dp, v)
    else .ok (dp, value)

/-- `verify_token` from app.py: 401 for a missing or malformed header,
403 for a well-formed bearer header carrying the wrong token. -/
def verify_token (token : String) (authorization : Option String) :
    Except BridgeError Bool :=
  match authorization with
  | none => .error .missingAuth
  | some a =>
    let parts := pySplit a
    if parts.length ≠ 2 ∨ pyLower (parts.headD "") ≠ "bearer" then
      .error .badAuthFormat
    else if parts.getD 1 "" ≠ token then .error .badToken
    else .ok true

/-- Static service configuration surfaced by `/health`. -/
structure BridgeConfig where
  device_id : Option String
  device_ip : Option String
  temp_unit : TempUnit
deriving DecidableEq, Repr

/-- The `/health` payload. -/
structure HealthResponse where
  status : String
  device_id : Option String
  device_ip : Option String
  temp_unit : TempUnit
deriving DecidableEq, Repr

/-- `/health`: answers unconditionally and takes no authorization. -/
def healthCheck (cfg : BridgeConfig) : HealthResponse :=
  { status := "ok", device_id := cfg.device_id, device_ip := cfg.device_ip,
    temp_unit := cfg.temp_unit }

/-- `/status`: token check, then `get_status`, then `parse_status`. -/
def status_endpoint (token : String) (authorization : Option String)
    (modeT2H fanT2H : List (String × String)) (unit : TempUnit)
    (s : ConnState) (now : ℚ) (refresh : Bool)
    (credsOk constructOk : Bool) (outcome : StatusOutcome) :
    Option (Except BridgeError StatusResponse × ConnState) :=
  match verify_token token authorization with
  | .error e => some (.error e, s)
  | .ok _ =>
    match get_status s now refresh credsOk constructOk outcome with
    | none => none
    | some (raw, s') =>
      match parse_status unit modeT2H fanT2H raw with
      | none => some (.error .typeError, s')
      | some resp => some (.ok resp, s')

/-- The `/command` success payload. -/
structure CommandResponse where
  command : String
  value : PyVal
  dp : ℤ
  status : StatusResponse
deriving DecidableEq, Repr

/-- `/command`: token check, pure translation, `set_value`, then a forced
status refresh (the `time.sleep(0.5)` between the two device calls has no
observable effect in this model). -/
def command_endpoint (token : String) (authorization : Option String)
    (dps : List (String × DpInfo))
    (modeH2T fanH2T modeT2H fanT2H : List (String × String))
    (unit : TempUnit) (s : ConnState) (cmd : String) (value : PyVal)
    (credsOk constructOk1 : Bool) (setOutcome : SetOutcome)
    (constructOk2 : Bool) (statusOutcome : StatusOutcome) (now : ℚ) :
    Option (Except BridgeError CommandResponse × ConnState) :=
  match verify_token token authorization with
  | .error e => some (.error e, s)
  | .ok _ =>
    match translateCommand dps modeH2T fanH2T unit cmd value with
    | .error e => some (.error e, s)
    | .ok (dp, v) =>
      match set_value s credsOk constructOk1 setOutcome with
      | none => none
      | some (false, s') => some (.error .sendFailed, s')
      | some (true, s') =>
        match get_status s' now true credsOk constructOk2 statusOutcome with
        | none => none
        | some (raw, s'') =>
          match parse_status unit modeT2H fanT2H raw with
          | none => some (.error .typeError, s'')
          | some resp =>
            some (.ok { command := pyLower cmd, value := v, dp := dp,
                        status := resp }, s'')

/-- `/discover`: token check, then a network scan (the scan result is an
opaque outcome of the tinytuya collaborator). -/
def discover_endpoint (token : String) (authorization : Option String)
    (scan : List PyVal) : Except BridgeError (List PyVal) :=
  match verify_token token authorization with
  | .error e => .error e
  | .ok _ => .ok scan

/-- `/reconnect`: token check, then `connect`, 500 on failure. -/
def reconnect_endpoint (token : String) (authorization : Option String)
    (s : ConnState) (credsOk constructOk : Bool) :
    Option (Except BridgeError String × ConnState) :=
  match verify_token token authorization with
  | .error e => some (.error e, s)
  | .ok _ =>
    match connect credsOk constructOk s with
    | none => none
    | some (true, s') => some (.ok "Reconnected successfully", s')
    | some (false, s') => some (.error .reconnectFailed, s')

/-- Modelled from the spec: the `power` descriptor of the datapoint table
of `dpids.yaml`, which is loaded by app.py but is not under src/. -/
def powerDp : DpInfo :=
  { dp := 1, type := "bool", min? := none, max? := none, values := [] }

/-- Modelled from the spec: the `target_temp` descriptor (type int,
bounds left to the 61-86 defaults, as in section 4.3 of the spec). -/
def targetTempDp : DpInfo :=
  { dp := 2, type := "int", min? := none, max? := none, values := [] }

/-- Modelled from the spec: the `mode` descriptor with the device-native
enumeration probed by src/discovery/dp_probe.py. -/
def modeDp : DpInfo :=
  { dp := 4, type := "enum", min? := none, max? := none,
    values := ["cold", "hot", "wet", "wind", "auto"] }

/-- Modelled from the spec: the `fan` descriptor with the device-native
enumeration probed by src/discovery/dp_probe.py. -/
def fanDp : DpInfo :=
  { dp := 5, type := "enum", min? := none, max? := none,
    values := ["auto", "quiet", "low", "medium-low", "medium",
               "medium-high", "high", "strong"] }

/-- Modelled from the spec: the datapoint table of `dpids.yaml` (not
under src/).  Entries follow section 3 and section 8 of the spec:
lowercase canonical names, keyed by command name.  Only the entries the
claims exercise are listed. -/
def DATAPOINTS : List (String × DpInfo) :=
  [("power", powerDp), ("target_temp", targetTempDp), ("mode", modeDp),
   ("fan", fanDp)]

/-- Modelled from the spec: the `hubitat_to_tuya` direction of the mode
vocabulary map of `dpids.yaml` (not under src/), mapping Hubitat
thermostat spellings to the device-native tokens of the mode datapoint. -/
def MODE_MAP_hubitat_to_tuya : List (String × String) :=
  [("cool", "cold"), ("heat", "hot"), ("dry", "wet"), ("fan", "wind"),
   ("auto", "auto")]

/-- Modelled from the spec: the `tuya_to_hubitat` direction of the mode
vocabulary map of `dpids.yaml` (not under src/). -/
def MODE_MAP_tuya_to_hubitat : List (String × String) :=
  [("cold", "cool"), ("hot", "heat"), ("wet", "dry"), ("wind", "fan"),
   ("auto", "auto")]

/-- Modelled from the spec: the fan vocabulary map of `dpids.yaml` (not
under src/).  The spec names no fan spellings that differ between the two
vocabularies, so the map is empty and every token passes through. -/
def FAN_MAP_hubitat_to_tuya : List (String × String) := []

/-- Modelled from the spec: the `tuya_to_hubitat` fan direction; empty,
as above. -/
def FAN_MAP_tuya_to_hubitat : List (String × String) := []

/-- Is the outcome of an endpoint call a ValidationError (HTTP 400)? -/
def isValidationError {α : Type} (r : Option (Except BridgeError α × ConnState)) :
    Bool :=
  match r with
  | some (.error e, _) => statusOf e == 400
  | _ => false

/-! Theorems about the claims. -/

/-- Claim C1 (code_bug evidence): a `get_status` or `set_value` call made
while Disconnected (`self.device is None`) with credentials configured
never returns: holding `self.lock`, it invokes `connect`, which blocks
forever re-acquiring the same non-reentrant lock.  The claim says such a
call performs one reconnect attempt and then returns. -/
theorem getStatus_disconnected_deadlocks :
    get_status { connected := false, lockHeld := false, last_status := [],
                 last_status_time := 0, status_cache_ttl := 2 }
        100 true true true .exn = none ∧
    set_value { connected := false, lockHeld := false, last_status := [],
                last_status_time := 0, status_cache_ttl := 2 }
        true true .exn = none := by
  decide

/-- Claim C2: when the cache is fresh and `force_refresh` is false,
`get_status` returns the cached raw mapping and leaves the state
untouched, for every possible behaviour of the device link (hence no
device I/O); two such calls inside one TTL window therefore return the
identical mapping. -/
theorem getStatus_fresh_cache_pure (s : ConnState) (n1 n2 : ℚ)
    (c1 k1 c2 k2 : Bool) (o1 o2 : StatusOutcome)
    (h1 : n1 - s.last_status_time < s.status_cache_ttl)
    (h2 : n2 - s.last_status_time < s.status_cache_ttl) :
    get_status s n1 false c1 k1 o1 = some (s.last_status, s) ∧
    get_status s n2 false c2 k2 o2 = some (s.last_status, s) := by
  constructor <;> · unfold get_status; rw [if_pos ⟨rfl, by assumption⟩]

/-- Witness for C2 at a concrete fresh cache. -/
theorem getStatus_fresh_cache_pure_witness :
    get_status { connected := true, lockHeld := false,
                 last_status := [("1", .pbool true)], last_status_time := 10,
                 status_cache_ttl := 2 } 11 false true true .exn =
      some ([("1", .pbool true)],
        { connected := true, lockHeld := false,
          last_status := [("1", .pbool true)], last_status_time := 10,
          status_cache_ttl := 2 }) ∧
    get_status { connected := true, lockHeld := false,
                 last_status := [("1", .pbool true)], last_status_time := 10,
                 status_cache_ttl := 2 } (23/2) false false false .noDps =
      some ([("1", .pbool true)],
        { connected := true, lockHeld := false,
          last_status := [("1", .pbool true)], last_status_time := 10,
          status_cache_ttl := 2 }) :=
  getStatus_fresh_cache_pure _ 11 (23/2) true true false false .exn .noDps
    (by norm_num) (by norm_num)

/-- Claim C4 (code_bug evidence): with display unit C, a raw mapping that
carries datapoint 2 with raw value 320 (32.0 F, which converts to 0.0 C)
produces a canonical status whose `target_temp` is absent, because
`round(x, 1) if x else None` treats the value 0.0 as missing.  The claim
says the field is present whenever datapoint 2 is present. -/
theorem parse_status_zero_drops_field :
    dictGet ([("2", PyVal.pnum 320)] : RawDps) "2" = some (.pnum 320) ∧
    (parse_status .C [] [] [("2", PyVal.pnum 320)]).isSome = true ∧
    Option.bind (parse_status .C [] [] [("2", PyVal.pnum 320)])
      (fun r => r.target_temp) = none := by
  decide

/-- Claim C5: a device exception inside a live query or send surfaces
purely as a return value plus a state transition — `get_status` drops the
handle and returns the empty mapping, `set_value` drops the handle and
returns false; both calls return normally (`some`). -/
theorem io_failure_returns_state (s : ConnState) (now : ℚ) (c k : Bool)
    (hc : s.connected = true) (hl : s.lockHeld = false) :
    get_status s now true c k .exn =
      some ([], { s with connected := false, lockHeld := false }) ∧
    set_value s c k .exn =
      some (false, { s with connected := false, lockHeld := false }) := by
  obtain ⟨con, lh, ls, lt, ttl⟩ := s
  simp only at hc hl
  subst hc hl
  constructor
  · unfold get_status
    rw [if_neg (by simp)]
    simp [statusQuery]
  · unfold set_value
    simp [setSend]

/-- Witness for C5 at a concrete connected state. -/
theorem io_failure_returns_state_witness :
    get_status { connected := true, lockHeld := false, last_status := [],
                 last_status_time := 5, status_cache_ttl := 2 }
        50 true true true .exn =
      some ([], { connected := false, lockHeld := false, last_status := [],
                  last_status_time := 5, status_cache_ttl := 2 }) ∧
    set_value { connected := true, lockHeld := false, last_status := [],
                last_status_time := 5, status_cache_ttl := 2 }
        true true .exn =
      some (false, { connected := false, lockHeld := false,
                     last_status := [], last_status_time := 5,
                     status_cache_ttl := 2 }) :=
  io_failure_returns_state
    { connected := true, lockHeld := false, last_status := [],
      last_status_time := 5, status_cache_ttl := 2 }
    50 true true rfl rfl

/-- Unfolding lemma: on a table whose `target_temp` entry is declared
`int`, the command pipeline reaches the temperature branch and emits the
descriptor's dp index with the converted, scaled, clamped raw value. -/
theorem translateCommand_target_temp (dps : List (String × DpInfo))
    (mm fm : List (String × String)) (unit : TempUnit) (d : DpInfo) (v : ℚ)
    (hl : dictGet dps "target_temp" = some d) (ht : d.type = "int") :
    translateCommand dps mm fm unit "target_temp" (.pnum v) =
      .ok (d.dp, .pnum ((targetTempRaw unit d v : ℤ) : ℚ)) := by
  have hlow : pyLower "target_temp" = "target_temp" := by decide
  simp only [translateCommand, hlow, hl]
  rw [if_neg (by rw [ht]; decide), if_pos ht]
  simp [pyFloatCoerce]

/-- Claim C6: the raw target temperature is the display-unit input
converted to Fahrenheit, scaled by 10, truncated, and clamped into the
configured bounds scaled by 10 (defaults 61-86); it always lies inside
those bounds, equals the plain conversion whenever that is already in
range, is never rejected, and the concrete case 200 F clamps to 860. -/
theorem targetTemp_clamped (unit : TempUnit) (d : DpInfo)
    (mm fm : List (String × String)) (dps : List (String × DpInfo)) (v : ℚ)
    (hl : dictGet dps "target_temp" = some d) (ht : d.type = "int")
    (hb : d.min?.getD 61 ≤ d.max?.getD 86) :
    (d.min?.getD 61 * 10 ≤ targetTempRaw unit d v ∧
     targetTempRaw unit d v ≤ d.max?.getD 86 * 10) ∧
    (d.min?.getD 61 * 10 ≤ pyInt (toDeviceF unit v * 10) →
     pyInt (toDeviceF unit v * 10) ≤ d.max?.getD 86 * 10 →
     targetTempRaw unit d v = pyInt (toDeviceF unit v * 10)) ∧
    translateCommand dps mm fm unit "target_temp" (.pnum v) =
      .ok (d.dp, .pnum ((targetTempRaw unit d v : ℤ) : ℚ)) ∧
    translateCommand DATAPOINTS MODE_MAP_hubitat_to_tuya
        FAN_MAP_hubitat_to_tuya .F "target_temp" (.pnum 200) =
      .ok (2, .pnum 860) := by
  refine ⟨?_, ?_, translateCommand_target_temp dps mm fm unit d v hl ht,
    by decide⟩
  · simp only [targetTempRaw]
    omega
  · intro h1 h2
    simp only [targetTempRaw] at h1 h2 ⊢
    omega

/-- Witness for C6: with the default bounds, 200 F lands inside
[610, 860] after clamping. -/
theorem targetTemp_clamped_witness :
    (610 : ℤ) ≤ targetTempRaw .F targetTempDp 200 ∧
    targetTempRaw .F targetTempDp 200 ≤ 860 :=
  (targetTemp_clamped .F targetTempDp
    MODE_MAP_hubitat_to_tuya FAN_MAP_hubitat_to_tuya DATAPOINTS 200
    (by decide) rfl (by decide)).1

/-- Claim C7: an enum command first translates the value through the
canonical-to-device vocabulary (unmapped tokens pass through), and a
translated token outside a non-empty declared value set is rejected with
a ValidationError (HTTP 400) that carries the valid set; concretely,
mode "invalid_mode" is rejected with the five device-native modes. -/
theorem enum_rejected_with_valid_list (dps : List (String × DpInfo))
    (mm fm : List (String × String)) (unit : TempUnit) (cmd : String)
    (d : DpInfo) (value : PyVal)
    (hl : dictGet dps (pyLower cmd) = some d) (ht : d.type = "enum")
    (hne : d.values ≠ [])
    (hmem : pyMemStr (enumValue mm fm (pyLower cmd) value) d.values = false) :
    translateCommand dps mm fm unit cmd value =
      .error (.invalidEnum (enumValue mm fm (pyLower cmd) value)
        (pyLower cmd) d.values) ∧
    statusOf (.invalidEnum (enumValue mm fm (pyLower cmd) value)
      (pyLower cmd) d.values) = 400 ∧
    (∀ s : String, dictGet mm s = none →
      enumValue mm fm "mode" (.pstr s) = .pstr s) ∧
    translateCommand DATAPOINTS MODE_MAP_hubitat_to_tuya
        FAN_MAP_hubitat_to_tuya .F "mode" (.pstr "invalid_mode") =
      .error (.invalidEnum (.pstr "invalid_mode") "mode"
        ["cold", "hot", "wet", "wind", "auto"]) := by
  refine ⟨?_, rfl, ?_, by decide⟩
  · simp only [translateCommand, hl]
    rw [if_neg (by rw [ht]; decide), if_neg (by rw [ht]; decide), if_pos ht,
      if_pos ⟨hne, hmem⟩]
  · intro s hs
    have hs' : List.lookup s mm = none := hs
    simp [enumValue, vocabApply, lookupD, dictGet, hs']

/-- Witness for C7 at the concrete rejected mode command. -/
theorem enum_rejected_with_valid_list_witness :
    translateCommand DATAPOINTS MODE_MAP_hubitat_to_tuya
        FAN_MAP_hubitat_to_tuya .F "mode" (.pstr "invalid_mode") =
      .error (.invalidEnum
        (enumValue MODE_MAP_hubitat_to_tuya FAN_MAP_hubitat_to_tuya
          (pyLower "mode") (.pstr "invalid_mode"))
        (pyLower "mode") ["cold", "hot", "wet", "wind", "auto"]) :=
  (enum_rejected_with_valid_list DATAPOINTS MODE_MAP_hubitat_to_tuya
    FAN_MAP_hubitat_to_tuya .F "mode" modeDp
    (.pstr "invalid_mode") (by decide) rfl (by decide) (by decide)).1

/-- Claim C8 (amended): a command whose lowercased name is absent from
the datapoint table is rejected with the 400 "unknown command" error, for
every supplied value and every device-link behaviour, with the connection
state untouched (no device I/O). -/
theorem unknown_command_rejected (tok : String) (auth : Option String)
    (dps : List (String × DpInfo))
    (mmH fmH mmT fmT : List (String × String)) (unit : TempUnit)
    (s : ConnState) (cmd : String) (value : PyVal) (c k1 : Bool)
    (so : SetOutcome) (k2 : Bool) (o : StatusOutcome) (now : ℚ)
    (hauth : verify_token tok auth = .ok true)
    (h : dictGet dps (pyLower cmd) = none) :
    command_endpoint tok auth dps mmH fmH mmT fmT unit s cmd value
        c k1 so k2 o now =
      some (.error (.unknownCommand (pyLower cmd)), s) ∧
    statusOf (.unknownCommand (pyLower cmd)) = 400 := by
  refine ⟨?_, rfl⟩
  unfold command_endpoint
  rw [hauth]
  simp only [translateCommand, h]

/-- Witness for C8's amended theorem at a genuinely unknown name. -/
theorem unknown_command_rejected_witness :
    command_endpoint "secret" (some "Bearer secret") DATAPOINTS
        MODE_MAP_hubitat_to_tuya FAN_MAP_hubitat_to_tuya
        MODE_MAP_tuya_to_hubitat FAN_MAP_tuya_to_hubitat .F
        { connected := true, lockHeld := false, last_status := [],
          last_status_time := 0, status_cache_ttl := 2 }
        "frobnicate" (.pnum 1) true true .ack true (.ok []) 100 =
      some (.error (.unknownCommand "frobnicate"),
        { connected := true, lockHeld := false, last_status := [],
          last_status_time := 0, status_cache_ttl := 2 }) :=
  (unknown_command_rejected "secret" (some "Bearer secret") DATAPOINTS
    MODE_MAP_hubitat_to_tuya FAN_MAP_hubitat_to_tuya
    MODE_MAP_tuya_to_hubitat FAN_MAP_tuya_to_hubitat .F
    { connected := true, lockHeld := false, last_status := [],
      last_status_time := 0, status_cache_ttl := 2 }
    "frobnicate" (.pnum 1) true true .ack true (.ok []) 100
    (by decide) (by decide)).1

/-- Counterexample to claim C8 as stated: "POWER" is a command name not
present in the datapoint table (its keys are lowercase), yet the request
is not rejected with a ValidationError — the code lowercases the name
first and executes the power command. -/
theorem unknown_command_case_counterexample :
    dictGet DATAPOINTS "POWER" = none ∧
    isValidationError (command_endpoint "secret" (some "Bearer secret")
      DATAPOINTS MODE_MAP_hubitat_to_tuya FAN_MAP_hubitat_to_tuya
      MODE_MAP_tuya_to_hubitat FAN_MAP_tuya_to_hubitat .F
      { connected := true, lockHeld := false, last_status := [],
        last_status_time := 0, status_cache_ttl := 2 }
      "POWER" (.pbool true) true true .ack true
      (.ok [("1", .pbool true)]) 100) = false := by
  decide

/-- Claim C10: requests without an Authorization header, or with a header
that does not split into a case-insensitive "Bearer" scheme plus one
token, are rejected with 401; a well-formed bearer header with the wrong
token is rejected with 403; any such rejection reaches all four protected
endpoints before any device interaction (state unchanged, result
independent of every device outcome); `/health` answers unconditionally
and consults no token. -/
theorem auth_gate (tok : String) :
    (verify_token tok none = .error .missingAuth ∧
     statusOf .missingAuth = 401) ∧
    (∀ a : String,
      (pySplit a).length ≠ 2 ∨ pyLower ((pySplit a).headD "") ≠ "bearer" →
      verify_token tok (some a) = .error .badAuthFormat ∧
      statusOf .badAuthFormat = 401) ∧
    (∀ a w t : String, pySplit a = [w, t] → pyLower w = "bearer" →
      t ≠ tok →
      verify_token tok (some a) = .error .badToken ∧
      statusOf .badToken = 403) ∧
    (∀ (auth : Option String) (e : BridgeError),
      verify_token tok auth = .error e →
      (∀ (mm fm : List (String × String)) (unit : TempUnit) (s : ConnState)
          (now : ℚ) (refresh : Bool) (c k : Bool) (o : StatusOutcome),
        status_endpoint tok auth mm fm unit s now refresh c k o =
          some (.error e, s)) ∧
      (∀ (dps : List (String × DpInfo))
          (mmH fmH mmT fmT : List (String × String)) (unit : TempUnit)
          (s : ConnState) (cmd : String) (v : PyVal) (c k1 : Bool)
          (so : SetOutcome) (k2 : Bool) (o : StatusOutcome) (now : ℚ),
        command_endpoint tok auth dps mmH fmH mmT fmT unit s cmd v
            c k1 so k2 o now = some (.error e, s)) ∧
      (∀ scan : List PyVal,
        discover_endpoint tok auth scan = .error e) ∧
      (∀ (s : ConnState) (c k : Bool),
        reconnect_endpoint tok auth s c k = some (.error e, s))) ∧
    (∀ cfg : BridgeConfig,
      healthCheck cfg = { status := "ok", device_id := cfg.device_id,
                          device_ip := cfg.device_ip,
                          temp_unit := cfg.temp_unit }) := by
  refine ⟨⟨rfl, rfl⟩, ?_, ?_, ?_, fun _ => rfl⟩
  · intro a h
    refine ⟨?_, rfl⟩
    simp only [verify_token]
    rw [if_pos h]
  · intro a w t hsplit hw ht
    refine ⟨?_, rfl⟩
    simp only [verify_token, hsplit]
    rw [if_neg (by simp [hw]), if_pos (by simpa using ht)]
  · intro auth e he
    refine ⟨?_, ?_, ?_, ?_⟩
    · intro mm fm unit s now refresh c k o
      unfold status_endpoint
      rw [he]
    · intro dps mmH fmH mmT fmT unit s cmd v c k1 so k2 o now
      unfold command_endpoint
      rw [he]
    · intro scan
      unfold discover_endpoint
      rw [he]
    · intro s c k
      unfold reconnect_endpoint
      rw [he]

/-- Witness for C10 on concrete requests: a basic-auth header, a wrong
bearer token, a missing header reaching `/status` untouched, and a
`/health` answer. -/
theorem auth_gate_witness :
    (verify_token "secret" none = .error .missingAuth) ∧
    (verify_token "secret" (some "Basic abc") = .error .badAuthFormat) ∧
    (verify_token "secret" (some "Bearer wrong") = .error .badToken) ∧
    status_endpoint "secret" none [] [] .F
        { connected := true, lockHeld := false, last_status := [],
          last_status_time := 0, status_cache_ttl := 2 } 0 false true true
        .exn =
      some (.error .missingAuth,
        { connected := true, lockHeld := false, last_status := [],
          last_status_time := 0, status_cache_ttl := 2 }) ∧
    healthCheck { device_id := some "dev", device_ip := some "10.0.0.2",
                  temp_unit := .F } =
      { status := "ok", device_id := some "dev",
        device_ip := some "10.0.0.2", temp_unit := .F } := by
  have h := auth_gate "secret"
  exact ⟨h.1.1, (h.2.1 "Basic abc" (by decide)).1,
    (h.2.2.1 "Bearer wrong" "Bearer" "wrong" (by decide) (by decide)
      (by decide)).1,
    (h.2.2.2.1 none .missingAuth h.1.1).1 [] [] .F _ 0 false true true .exn,
    h.2.2.2.2 _⟩

/-- Rounding a rational with denominator 9 moves it by at most 4/9:
the scaled Celsius value of any integer raw reading is a multiple of 5/9,
never an exact half, so rounding to one decimal loses strictly less than
half a decimal step. -/
theorem round_ninths_err (k : ℤ) :
    |((round ((k : ℚ) * 5 / 9) : ℤ) : ℚ) - (k : ℚ) * 5 / 9| ≤ 4 / 9 := by
  have h1 : |(k : ℚ) * 5 / 9 - ((round ((k : ℚ) * 5 / 9) : ℤ) : ℚ)| ≤ 1 / 2 :=
    abs_sub_round ((k : ℚ) * 5 / 9)
  set r : ℤ := round ((k : ℚ) * 5 / 9) with hr
  have hd : ((9 * r - 5 * k : ℤ) : ℚ) = 9 * ((r : ℚ) - (k : ℚ) * 5 / 9) := by
    push_cast
    ring
  have habs : |((9 * r - 5 * k : ℤ) : ℚ)| ≤ 9 / 2 := by
    rw [hd, abs_mul, abs_of_pos (show (0 : ℚ) < 9 by norm_num)]
    rw [abs_sub_comm] at h1
    linarith
  have hint : |9 * r - 5 * k| ≤ 4 := by
    by_contra hcon
    push_neg at hcon
    have h5 : (5 : ℚ) ≤ |((9 * r - 5 * k : ℤ) : ℚ)| := by
      rw [← Int.cast_abs]
      exact_mod_cast hcon
    linarith
  have heq : |(r : ℚ) - (k : ℚ) * 5 / 9| =
      |((9 * r - 5 * k : ℤ) : ℚ)| / 9 := by
    rw [hd, abs_mul, abs_of_pos (show (0 : ℚ) < 9 by norm_num)]
    ring
  rw [heq]
  have h4 : |((9 * r - 5 * k : ℤ) : ℚ)| ≤ 4 := by
    rw [← Int.cast_abs]
    exact_mod_cast hint
  linarith

/-- Evaluation of `parse_status` on a mapping holding only a numeric
datapoint 2: every other field is absent and the target temperature goes
through the division, unit conversion and truthiness-guarded rounding. -/
theorem parse_status_target_num (unit : TempUnit)
    (mm fm : List (String × String)) (q : ℚ) :
    parse_status unit mm fm [("2", .pnum q)] =
      some { online := true, power := none, mode := none,
             target_temp := roundIfTruthy
               (some (if unit = .C then fahrenheit_to_celsius (q / 10)
                      else q / 10)),
             current_temp := none, fan := none, humidity := none,
             vert_swing := none, horiz_swing := none, filter_dirty := none,
             raw_dps := [("2", .pnum q)] } := by
  rfl

/-- Truncating a Fahrenheit display value to integer tenths loses less
than one tenth. -/
theorem f_trunc_err (v : ℚ) (N : ℤ) (hle : (N : ℚ) ≤ v * 10)
    (hlt : v * 10 < (N : ℚ) + 1) : |(N : ℚ) / 10 - v| ≤ 1 / 10 := by
  rw [abs_le]
  constructor <;> linarith

/-- A Celsius display value sent to the device (converted to Fahrenheit,
scaled, truncated to the integer raw N) and read back (divided, converted
back, rounded to one decimal) moves by at most one tenth: the truncation
loses under 5/90 and the ninths-rounding at most 4/90. -/
theorem c_roundtrip_err (v : ℚ) (N : ℤ)
    (hle : (N : ℚ) ≤ (v * 9 / 5 + 32) * 10)
    (hlt : (v * 9 / 5 + 32) * 10 < (N : ℚ) + 1) :
    |((round (((N - 320 : ℤ) : ℚ) * 5 / 9) : ℤ) : ℚ) / 10 - v| ≤ 1 / 10 := by
  have herr := round_ninths_err (N - 320)
  have hc : ((N - 320 : ℤ) : ℚ) = (N : ℚ) - 320 := by push_cast; ring
  rw [hc] at herr ⊢
  rw [abs_le] at herr ⊢
  constructor
  · linarith [herr.1]
  · linarith [herr.2]

/-- Claim C3: for every canonical temperature whose converted, scaled raw
value is in range, sending `target_temp` and parsing the resulting raw
value reproduces the input within 0.1; concretely, 74 F becomes raw 740
and raw 740 parses back to 74.0. -/
theorem targetTemp_roundtrip (unit : TempUnit) (v : ℚ)
    (h1 : 610 ≤ pyInt (toDeviceF unit v * 10))
    (h2 : pyInt (toDeviceF unit v * 10) ≤ 860) :
    (∃ n : ℤ,
      translateCommand DATAPOINTS MODE_MAP_hubitat_to_tuya
          FAN_MAP_hubitat_to_tuya unit "target_temp" (.pnum v) =
        .ok (2, .pnum (n : ℚ)) ∧
      ∃ t : ℚ,
        (parse_status unit MODE_MAP_tuya_to_hubitat FAN_MAP_tuya_to_hubitat
          [("2", .pnum (n : ℚ))]).bind (fun r => r.target_temp) = some t ∧
        |t - v| ≤ 1 / 10) ∧
    translateCommand DATAPOINTS MODE_MAP_hubitat_to_tuya
        FAN_MAP_hubitat_to_tuya .F "target_temp" (.pnum 74) =
      .ok (2, .pnum 740) ∧
    (parse_status .F MODE_MAP_tuya_to_hubitat FAN_MAP_tuya_to_hubitat
      [("2", .pnum 740)]).bind (fun r => r.target_temp) = some 74 := by
  refine ⟨?_, by decide, by decide⟩
  have hx0 : 0 ≤ toDeviceF unit v * 10 := by
    by_contra hneg
    push_neg at hneg
    have hc : pyInt (toDeviceF unit v * 10) = ⌈toDeviceF unit v * 10⌉ := by
      rw [pyInt, if_neg (not_le.mpr hneg)]
    have hle0 : ⌈toDeviceF unit v * 10⌉ ≤ 0 :=
      Int.ceil_le.mpr (by exact_mod_cast hneg.le)
    omega
  have hNf : pyInt (toDeviceF unit v * 10) = ⌊toDeviceF unit v * 10⌋ := by
    rw [pyInt, if_pos hx0]
  have hle : ((pyInt (toDeviceF unit v * 10) : ℤ) : ℚ) ≤
      toDeviceF unit v * 10 := by
    rw [hNf]
    exact_mod_cast Int.floor_le (toDeviceF unit v * 10)
  have hlt : toDeviceF unit v * 10 <
      ((pyInt (toDeviceF unit v * 10) : ℤ) : ℚ) + 1 := by
    rw [hNf]
    exact_mod_cast Int.lt_floor_add_one (toDeviceF unit v * 10)
  have hclamp : targetTempRaw unit targetTempDp v =
      pyInt (toDeviceF unit v * 10) := by
    simp only [targetTempRaw, targetTempDp, Option.getD]
    omega
  have htr : translateCommand DATAPOINTS MODE_MAP_hubitat_to_tuya
      FAN_MAP_hubitat_to_tuya unit "target_temp" (.pnum v) =
      .ok (2, .pnum ((pyInt (toDeviceF unit v * 10) : ℤ) : ℚ)) := by
    rw [translateCommand_target_temp DATAPOINTS MODE_MAP_hubitat_to_tuya
      FAN_MAP_hubitat_to_tuya unit targetTempDp v (by decide) rfl, hclamp]
    rfl
  refine ⟨pyInt (toDeviceF unit v * 10), htr, ?_⟩
  rw [parse_status_target_num]
  have hN610 : (610 : ℚ) ≤ ((pyInt (toDeviceF unit v * 10) : ℤ) : ℚ) := by
    exact_mod_cast h1
  cases unit with
  | F =>
    simp only [show toDeviceF TempUnit.F v = v from rfl] at hle hlt hN610 ⊢
    refine ⟨((pyInt (v * 10) : ℤ) : ℚ) / 10, ?_, f_trunc_err v _ hle hlt⟩
    show roundIfTruthy (some (if TempUnit.F = TempUnit.C then
        fahrenheit_to_celsius (((pyInt (v * 10) : ℤ) : ℚ) / 10)
        else ((pyInt (v * 10) : ℤ) : ℚ) / 10)) =
      some (((pyInt (v * 10) : ℤ) : ℚ) / 10)
    rw [if_neg (by decide)]
    have hpos : 0 < ((pyInt (v * 10) : ℤ) : ℚ) / 10 := by linarith
    show (if ((pyInt (v * 10) : ℤ) : ℚ) / 10 = 0 then none
          else some (pyRound1 (((pyInt (v * 10) : ℤ) : ℚ) / 10))) =
      some (((pyInt (v * 10) : ℤ) : ℚ) / 10)
    rw [if_neg hpos.ne']
    have hmul : ((pyInt (v * 10) : ℤ) : ℚ) / 10 * 10 =
        ((pyInt (v * 10) : ℤ) : ℚ) := by
      field_simp
    rw [pyRound1, hmul, round_intCast]
  | C =>
    have hvx : toDeviceF TempUnit.C v = v * 9 / 5 + 32 := by
      simp [toDeviceF, celsius_to_fahrenheit]
    simp only [hvx] at hle hlt hN610 ⊢
    refine ⟨pyRound1 (fahrenheit_to_celsius
      (((pyInt ((v * 9 / 5 + 32) * 10) : ℤ) : ℚ) / 10)), ?_, ?_⟩
    · show roundIfTruthy (some (if TempUnit.C = TempUnit.C then
          fahrenheit_to_celsius
            (((pyInt ((v * 9 / 5 + 32) * 10) : ℤ) : ℚ) / 10)
          else ((pyInt ((v * 9 / 5 + 32) * 10) : ℤ) : ℚ) / 10)) =
        some (pyRound1 (fahrenheit_to_celsius
          (((pyInt ((v * 9 / 5 + 32) * 10) : ℤ) : ℚ) / 10)))
      rw [if_pos rfl]
      have hpos : 0 < fahrenheit_to_celsius
          (((pyInt ((v * 9 / 5 + 32) * 10) : ℤ) : ℚ) / 10) := by
        rw [fahrenheit_to_celsius]
        linarith
      show (if fahrenheit_to_celsius
              (((pyInt ((v * 9 / 5 + 32) * 10) : ℤ) : ℚ) / 10) = 0 then none
            else some (pyRound1 (fahrenheit_to_celsius
              (((pyInt ((v * 9 / 5 + 32) * 10) : ℤ) : ℚ) / 10)))) =
        some (pyRound1 (fahrenheit_to_celsius
          (((pyInt ((v * 9 / 5 + 32) * 10) : ℤ) : ℚ) / 10)))
      rw [if_neg hpos.ne']
    · have hmul10 : fahrenheit_to_celsius
          (((pyInt ((v * 9 / 5 + 32) * 10) : ℤ) : ℚ) / 10) * 10 =
          ((pyInt ((v * 9 / 5 + 32) * 10) - 320 : ℤ) : ℚ) * 5 / 9 := by
        rw [fahrenheit_to_celsius]
        push_cast
        ring
      rw [pyRound1, hmul10]
      exact c_roundtrip_err v _ hle hlt

/-- Witness for C3 with display unit C at 25 degrees: raw 770, parsed
back to exactly 25.0. -/
theorem targetTemp_roundtrip_witness :
    (∃ n : ℤ,
      translateCommand DATAPOINTS MODE_MAP_hubitat_to_tuya
          FAN_MAP_hubitat_to_tuya .C "target_temp" (.pnum 25) =
        .ok (2, .pnum (n : ℚ)) ∧
      ∃ t : ℚ,
        (parse_status .C MODE_MAP_tuya_to_hubitat FAN_MAP_tuya_to_hubitat
          [("2", .pnum (n : ℚ))]).bind (fun r => r.target_temp) = some t ∧
        |t - 25| ≤ 1 / 10) ∧
    translateCommand DATAPOINTS MODE_MAP_hubitat_to_tuya
        FAN_MAP_hubitat_to_tuya .F "target_temp" (.pnum 74) =
      .ok (2, .pnum 740) ∧
    (parse_status .F MODE_MAP_tuya_to_hubitat FAN_MAP_tuya_to_hubitat
      [("2", .pnum 740)]).bind (fun r => r.target_temp) = some 74 :=
  targetTemp_roundtrip .C 25 (by decide) (by decide)

end TuyaMinisplit
